import Mathlib

/-!
Shallow embedding of the SAML response decode-validate-decrypt pipeline
(`decode_response.go`) of the gosaml2 service-provider library, together with
theorems settling the specification claims about it.

The pipeline's own logic (orchestration, branch structure, counters, the lazy
decryption-certificate cache, the structural parent checks, in-place child
replacement) is translated statement by statement from the source.  The
external collaborators the source calls into (base64 decoding, raw-deflate
decompression, XML parsing and serialization, namespace detachment, XML
signature validation, XML-block decryption, schema unmarshalling) are modelled
as a record of abstract deterministic functions (`Capabilities`), matching the
spec's description of them as consumed capabilities with a stated contract.
-/

/-- XML element tree. `ns` stands for the element's resolved namespace and
`tag` for its local name, as resolved by the external namespace machinery;
`content` abstracts the rest of an element's own data (attributes, text).
Children are ordered, as in the source's document model. -/
inductive Element where
  | mk (ns tag content : String) (children : List Element)

def Element.ns : Element → String
  | .mk n _ _ _ => n

def Element.tag : Element → String
  | .mk _ t _ _ => t

def Element.content : Element → String
  | .mk _ _ c _ => c

def Element.children : Element → List Element
  | .mk _ _ _ cs => cs

/-- Replace the child list of an element, keeping everything else.  This is the
value-level counterpart of the source mutating `el`'s children in place. -/
def Element.withChildren : Element → List Element → Element
  | .mk n t x _, cs => .mk n t x cs

mutual

/-- Structural equality of elements.  The source compares `*etree.Element`
pointers (`encryptedElement.Parent() != el`, `RemoveChild`); in the value-level
tree a node's parent is structurally equal to the root exactly when the node is
a direct child (a proper descendant is strictly smaller than the whole tree),
so structural equality is the faithful counterpart of those pointer tests. -/
def Element.beq : Element → Element → Bool
  | .mk n1 t1 x1 ch1, .mk n2 t2 x2 ch2 =>
    n1 == n2 && t1 == t2 && x1 == x2 && Element.beqList ch1 ch2

def Element.beqList : List Element → List Element → Bool
  | [], [] => true
  | a :: as, b :: bs => Element.beq a b && Element.beqList as bs
  | _, _ => false

end

/-- Embedding of the traversal of `etreeutils.NSFindIterate`: visit the
subtrees of `parent`'s children in document order; a child carrying the sought
namespace and tag is reported (paired with its direct parent, which the
handler's parent check consults) and its own subtree is not descended into;
any other child's subtree is searched recursively. -/
def findDescAux (ns tag : String) : Element → List Element → List (Element × Element)
  | _, [] => []
  | parent, c :: rest =>
    (if c.ns = ns ∧ c.tag = tag then [(parent, c)]
     else findDescAux ns tag c c.children)
    ++ findDescAux ns tag parent rest
termination_by _ l => sizeOf l
decreasing_by
  all_goals simp_wf
  all_goals cases c with | mk n t x cs => simp [Element.children]; omega

/-- Matching descendants of `el` (the response element under processing, whose
own name is never the sought assertion name), paired with their direct
parents, in the order `NSFindIterate` hands them to its handler. -/
def findDesc (ns tag : String) (el : Element) : List (Element × Element) :=
  findDescAux ns tag el el.children

/-- Constant declared in the repository outside the provided file: the fixed
SAML assertion namespace within which assertion elements are searched. -/
def SAMLAssertionNamespace : String := "urn:oasis:names:tc:SAML:2.0:assertion"

/-- Constant declared in the repository outside the provided file. -/
def AssertionTag : String := "Assertion"

/-- Constant declared in the repository outside the provided file. -/
def EncryptedAssertionTag : String := "EncryptedAssertion"

/-- Constant declared in the repository outside the provided file. -/
def DestinationAttr : String := "Destination"

/-- Constant declared in the repository outside the provided file: the reason
tag carried by the unsupported-version error value. -/
def ReasonUnsupported : String := "unsupported"

/-- Errors produced by the pipeline.  Each constructor stands for one distinct
error value the source can return: the sentinel `dsig.ErrMissingSignature`
(compared by the source with equality), the wrapped capability failures, the
structural and trust-consistency failures, and the two places where the source
panics rather than returning an error (`panicFault`). -/
inductive SamlError where
  | errMissingSignature
  | base64DecodeError (msg : String)
  | inflateError (msg : String)
  | xmlParseError (msg : String)
  | unableToParseResponse
  | missingTransformedResponse
  | signatureValidationError (msg : String)
  | encryptedAssertionUnexpectedParent (parentTag : String)
  | detachEncryptedAssertionError (msg : String)
  | unmarshalEncryptedAssertionError (msg : String)
  | noDecryptionCertsAvailable
  | keyPairError (msg : String)
  | decryptCertWrap (inner : SamlError)
  | decryptBytesError (msg : String)
  | decryptedBytesParseError
  | assertionUnexpectedParent (parentTag : String)
  | detachAssertionError (msg : String)
  | mixedSignedAndUnsignedAssertions
  | responseAndAssertionsMustBeSigned
  | unmarshalResponseError (msg : String)
  | errInvalidValue (reason key expected actual : String)
  | extendedValidationError (msg : String)
  | panicFault (msg : String)
deriving DecidableEq

/-- Run a handler over the elements found by the search, threading state and
stopping at the first handler error, as `etreeutils.NSFindIterate` does. -/
def iterateHandler {σ : Type} (f : σ → Element × Element → Except SamlError σ) :
    σ → List (Element × Element) → Except SamlError σ
  | st, [] => .ok st
  | st, pc :: rest =>
    match f st pc with
    | .error e => .error e
    | .ok st2 => iterateHandler f st2 rest

/-- Identity token standing for the externally owned IdP certificate trust
store. -/
structure IDPCertStore where
  storeId : Nat
deriving DecidableEq

/-- Identity token standing for the externally supplied clock. -/
structure SAMLClock where
  now : Nat
deriving DecidableEq

/-- Embedding of `dsig.ValidationContext` as the data the source puts into it:
the certificate store handed to `NewDefaultValidationContext` and the clock
assigned immediately afterwards. -/
structure ValidationContext where
  certificateStore : IDPCertStore
  clock : SAMLClock
deriving DecidableEq

/-- Embedding of `tls.Certificate` restricted to the fields the source
touches: the certificate chain and the private key (kept as an identifying
token). -/
structure TLSCertificate where
  certificate : List (List Nat)
  privateKey : Nat
deriving DecidableEq

/-- Embedding of the configured `SPKeyStore` capability: either it is directly
a `dsig.TLSCertKeyStore` (first arm of the source's type switch) or it is a
generic store whose `GetKeyPair()` yields a private key and a raw certificate,
or fails. -/
inductive KeyStore where
  | tlsCertKeyStore (cert : TLSCertificate)
  | genericKeyStore (keyPair : Except String (Nat × List Nat))

/-- Embedding of the typed response object (`types.Response`) restricted to
the attributes the provided source inspects, plus `body` standing for all its
remaining content. -/
structure TypedResponse where
  destination : String
  version : String
  body : String
deriving DecidableEq

/-- Embedding of `types.EncryptedAssertion` as the data extracted by
unmarshalling, kept as an identifying token consumed by the decryption
capability. -/
structure EncryptedAssertion where
  payload : String
deriving DecidableEq

/-- Embedding of the service-provider configuration, restricted to the fields
`decode_response.go` reads.  None of its fields is ever assigned by the
pipeline. -/
structure SAMLServiceProvider where
  idpCertificateStore : IDPCertStore
  clock : SAMLClock
  assertionConsumerServiceURL : String
  skipSignatureValidation : Bool
  spKeyStore : Option KeyStore

/-- Record of the external capabilities the source calls into, as pure
functions: the decoder primitives, the XML tree operations, the signature
validation capability (returning, like the Go API, a nullable element and a
nullable error) and the unmarshalling and decryption primitives, plus the
caller-supplied extended validation run by the orchestrator's final step. -/
structure Capabilities where
  base64Decode : String → Except String (List Nat)
  inflate : List Nat → Except String (List Nat)
  readFromBytes : List Nat → Except String (Option Element)
  nsDetach : Element → Except String Element
  unmarshalEncryptedAssertion : Element → Except String EncryptedAssertion
  decryptBytes : EncryptedAssertion → TLSCertificate → Except String (List Nat)
  validate : ValidationContext → Element → Option Element × Option SamlError
  unmarshalResponse : Element → Except String TypedResponse
  extendedValidation : TypedResponse → Except SamlError Unit

/-- Embedding of `SAMLServiceProvider.validationContext`: build a default
validation context over the IdP certificate store and install the provider's
clock. -/
def SAMLServiceProvider.validationContext (sp : SAMLServiceProvider) : ValidationContext :=
  { certificateStore := sp.idpCertificateStore, clock := sp.clock }

/-- Embedding of `SAMLServiceProvider.validateResponseAttributes`: the
destination attribute must equal the configured assertion-consumer service
URL, and the version attribute must equal the string "2.0"; the first error
value carries no reason (the zero value of the Go struct field), the second
carries the unsupported-value reason. -/
def validateResponseAttributes (sp : SAMLServiceProvider) (response : TypedResponse) :
    Except SamlError Unit :=
  if response.destination ≠ sp.assertionConsumerServiceURL then
    .error (.errInvalidValue "" DestinationAttr sp.assertionConsumerServiceURL
      response.destination)
  else if response.version ≠ "2.0" then
    .error (.errInvalidValue ReasonUnsupported "SAML version" "2.0" response.version)
  else
    .ok ()

/-- Embedding of `SAMLServiceProvider.getDecryptCert`: fail when no key store
is configured; use a `TLSCertKeyStore` directly; otherwise build a certificate
from the results of `GetKeyPair`, wrapping a keypair failure. -/
def SAMLServiceProvider.getDecryptCert (sp : SAMLServiceProvider) :
    Except SamlError TLSCertificate :=
  match sp.spKeyStore with
  | none => .error .noDecryptionCertsAvailable
  | some (.tlsCertKeyStore crt) => .ok crt
  | some (.genericKeyStore kp) =>
    match kp with
    | .error e => .error (.keyPairError e)
    | .ok (pk, cert) => .ok { certificate := [cert], privateKey := pk }

/-- State threaded through the decryption pass: the response element's current
child list (mutated in place by the source) and the closure-captured lazily
resolved decryption certificate, initially absent. -/
structure DecryptState where
  respChildren : List Element
  decryptCert : Option TLSCertificate

/-- Remove the first child structurally equal to the given element, or report
that nothing was removed: the value-level counterpart of
`el.RemoveChild(child)` returning the removed token or nil. -/
def removeChildFirst : List Element → Element → Option (List Element)
  | [], _ => none
  | c :: rest, x =>
    if Element.beq c x then some rest
    else (removeChildFirst rest x).map (fun l => c :: l)

/-- Embedding of the `decryptAssertion` closure inside
`SAMLServiceProvider.decryptAssertions`, processing one found
encrypted-assertion element `pc.2` with direct parent `pc.1`: reject an
unexpected parent; detach a namespace-self-contained copy; unmarshal it;
resolve the decryption certificate lazily through the captured cache; decrypt;
parse the plaintext; then remove the original encrypted element (a failed
removal is the source's panic) and append the new plaintext assertion element
(a nil parsed root makes the source's `AddChild` panic). -/
def decryptAssertion (caps : Capabilities) (sp : SAMLServiceProvider) (el : Element)
    (st : DecryptState) (pc : Element × Element) : Except SamlError DecryptState :=
  if Element.beq pc.1 el = false then
    .error (.encryptedAssertionUnexpectedParent pc.1.tag)
  else
    match caps.nsDetach pc.2 with
    | .error e => .error (.detachEncryptedAssertionError e)
    | .ok detached =>
      match caps.unmarshalEncryptedAssertion detached with
      | .error e => .error (.unmarshalEncryptedAssertionError e)
      | .ok encryptedAssertion =>
        match (match st.decryptCert with
               | some cert => Except.ok cert
               | none =>
                 match sp.getDecryptCert with
                 | .error e => Except.error (SamlError.decryptCertWrap e)
                 | .ok cert => Except.ok cert : Except SamlError TLSCertificate) with
        | .error e => .error e
        | .ok decryptCert =>
          match caps.decryptBytes encryptedAssertion decryptCert with
          | .error e => .error (.decryptBytesError e)
          | .ok raw =>
            match caps.readFromBytes raw with
            | .error _ => .error .decryptedBytesParseError
            | .ok root? =>
              match removeChildFirst st.respChildren pc.2 with
              | none => .error (.panicFault "unable to remove encrypted assertion")
              | some rest =>
                match root? with
                | none => .error (.panicFault "nil child added to element")
                | some newAssertion =>
                  .ok { respChildren := rest ++ [newAssertion],
                        decryptCert := some decryptCert }

/-- Initial state of the decryption pass over `el`: all current children, no
certificate resolved yet. -/
def initDecryptState (el : Element) : DecryptState :=
  { respChildren := el.children, decryptCert := none }

/-- Embedding of `SAMLServiceProvider.decryptAssertions`: iterate the
decryption handler over every found encrypted-assertion element, propagating
the first failure, and otherwise return the response element with its updated
child list. -/
def decryptAssertions (caps : Capabilities) (sp : SAMLServiceProvider) (el : Element) :
    Except SamlError Element :=
  match iterateHandler (decryptAssertion caps sp el) (initDecryptState el)
      (findDesc SAMLAssertionNamespace EncryptedAssertionTag el) with
  | .error e => .error e
  | .ok st => .ok (el.withChildren st.respChildren)

/-- Embedding of `SAMLServiceProvider.validateElementSignature`: run the
external validation capability on the element under the provider's validation
context. -/
def validateElementSignature (caps : Capabilities) (sp : SAMLServiceProvider)
    (el : Element) : Option Element × Option SamlError :=
  caps.validate sp.validationContext el

/-- State threaded through the assertion-signature pass: the response
element's current child list and the signed and unsigned counters. -/
structure AssertionValidationState where
  respChildren : List Element
  signedAssertions : Nat
  unsignedAssertions : Nat

/-- Embedding of the `validateAssertion` closure inside
`SAMLServiceProvider.validateAssertionSignatures`, processing one found
assertion element `pc.2` with direct parent `pc.1`: reject an unexpected
parent; detach a namespace-self-contained copy; validate it; a missing
signature increments the unsigned counter and leaves the original in place;
any other validation error aborts; on success remove the original assertion
(a failed removal is the source's panic), append the validated replacement
(a nil validated element makes the source's `AddChild` panic) and increment
the signed counter. -/
def validateAssertion (caps : Capabilities) (sp : SAMLServiceProvider) (el : Element)
    (st : AssertionValidationState) (pc : Element × Element) :
    Except SamlError AssertionValidationState :=
  if Element.beq pc.1 el = false then
    .error (.assertionUnexpectedParent pc.1.tag)
  else
    match caps.nsDetach pc.2 with
    | .error e => .error (.detachAssertionError e)
    | .ok detached =>
      match caps.validate sp.validationContext detached with
      | (_, some e) =>
        if e = .errMissingSignature then
          .ok { st with unsignedAssertions := st.unsignedAssertions + 1 }
        else
          .error e
      | (assertionResult, none) =>
        match removeChildFirst st.respChildren pc.2 with
        | none => .error (.panicFault "unable to remove assertion")
        | some rest =>
          match assertionResult with
          | none => .error (.panicFault "nil child added to element")
          | some assertion =>
            .ok { respChildren := rest ++ [assertion],
                  signedAssertions := st.signedAssertions + 1,
                  unsignedAssertions := st.unsignedAssertions }

/-- Initial state of the assertion-signature pass over `el`: all current
children, both counters zero. -/
def initAssertionState (el : Element) : AssertionValidationState :=
  { respChildren := el.children, signedAssertions := 0, unsignedAssertions := 0 }

/-- Embedding of `SAMLServiceProvider.validateAssertionSignatures`: iterate
the assertion handler over every found assertion element, propagating the
first failure; then reject a mixture of signed and unsigned assertions; then
report the missing-signature sentinel when no assertion was signed; otherwise
return the response element with its updated child list. -/
def validateAssertionSignatures (caps : Capabilities) (sp : SAMLServiceProvider)
    (el : Element) : Except SamlError Element :=
  match iterateHandler (validateAssertion caps sp el) (initAssertionState el)
      (findDesc SAMLAssertionNamespace AssertionTag el) with
  | .error e => .error e
  | .ok st =>
    if 0 < st.signedAssertions ∧ 0 < st.unsignedAssertions then
      .error .mixedSignedAndUnsignedAssertions
    else if st.signedAssertions < 1 then
      .error .errMissingSignature
    else
      .ok (el.withChildren st.respChildren)

/-- Embedding of the decode phase of `ValidateEncodedResponse` (base64 decode,
direct XML parse, raw-deflate fallback), yielding the parsed document's
nullable root. -/
def decodeResponseDoc (caps : Capabilities) (encodedResponse : String) :
    Except SamlError (Option Element) :=
  match caps.base64Decode encodedResponse with
  | .error e => .error (.base64DecodeError e)
  | .ok raw =>
    match caps.readFromBytes raw with
    | .ok root? => .ok root?
    | .error _ =>
      match caps.inflate raw with
      | .error e => .error (.inflateError e)
      | .ok buf =>
        match caps.readFromBytes buf with
        | .error e => .error (.xmlParseError e)
        | .ok root? => .ok root?

/-- Decode phase of `ValidateEncodedResponse` including the source's nil-root
check, which reports the distinct unable-to-parse error. -/
def decodeResponse (caps : Capabilities) (encodedResponse : String) :
    Except SamlError Element :=
  match decodeResponseDoc caps encodedResponse with
  | .error e => .error e
  | .ok none => .error .unableToParseResponse
  | .ok (some el) => .ok el

/-- Modelled from the spec: the semantic validation operation `sp.Validate`
invoked by the orchestrator's final step is not among the provided sources;
per the spec it runs the semantic attribute validation
(`validateResponseAttributes`) and any caller-supplied extended validation. -/
def spValidate (caps : Capabilities) (sp : SAMLServiceProvider)
    (response : TypedResponse) : Except SamlError Unit :=
  match validateResponseAttributes sp response with
  | .error e => .error e
  | .ok _ => caps.extendedValidation response

/-- Final phase of `ValidateEncodedResponse`: unmarshal the working root into
the typed response (wrapping an unmarshalling failure) and run the semantic
validation step, returning the typed response on success. -/
def unmarshalAndValidate (caps : Capabilities) (sp : SAMLServiceProvider)
    (el : Element) : Except SamlError TypedResponse :=
  match caps.unmarshalResponse el with
  | .error e => .error (.unmarshalResponseError e)
  | .ok decodedResponse =>
    match spValidate caps sp decodedResponse with
    | .error e => .error e
    | .ok _ => .ok decodedResponse

/-- Phase of `ValidateEncodedResponse` after the envelope step, taking the
working root and the envelope-validated flag: decrypt the assertions (any
failure terminal); unless signature checking is skipped, enforce the assertion
signatures, tolerating the missing-signature sentinel only when the envelope
was validated and otherwise promoting it to the must-be-signed error; finally
unmarshal and validate. -/
def afterEnvelopeValidation (caps : Capabilities) (sp : SAMLServiceProvider)
    (el : Element) (responseSignatureValidated : Bool) : Except SamlError TypedResponse :=
  match decryptAssertions caps sp el with
  | .error e => .error e
  | .ok el1 =>
    if sp.skipSignatureValidation then
      unmarshalAndValidate caps sp el1
    else
      match validateAssertionSignatures caps sp el1 with
      | .error e =>
        if e = .errMissingSignature then
          if responseSignatureValidated = false then
            .error .responseAndAssertionsMustBeSigned
          else
            unmarshalAndValidate caps sp el1
        else
          .error e
      | .ok el2 => unmarshalAndValidate caps sp el2

/-- Phase of `ValidateEncodedResponse` starting from the decoded root: unless
signature checking is skipped, validate the root element's signature — the
missing-signature sentinel keeps the original root with the flag unset, any
other error is terminal, a nil validated element with no error is the
missing-transformed-response error, and success replaces the working root and
sets the flag. -/
def afterDecode (caps : Capabilities) (sp : SAMLServiceProvider) (el0 : Element) :
    Except SamlError TypedResponse :=
  if sp.skipSignatureValidation then
    afterEnvelopeValidation caps sp el0 false
  else
    match validateElementSignature caps sp el0 with
    | (_, some e) =>
      if e = .errMissingSignature then
        afterEnvelopeValidation caps sp el0 false
      else
        .error e
    | (validated, none) =>
      match validated with
      | none => .error .missingTransformedResponse
      | some v => afterEnvelopeValidation caps sp v true

/-- Embedding of `SAMLServiceProvider.ValidateEncodedResponse`: decode, then
run the envelope validation and the rest of the pipeline. -/
def ValidateEncodedResponse (caps : Capabilities) (sp : SAMLServiceProvider)
    (encodedResponse : String) : Except SamlError TypedResponse :=
  match decodeResponse caps encodedResponse with
  | .error e => .error e
  | .ok el => afterDecode caps sp el

/-- State-threading form of `ValidateEncodedResponse`, pairing the result with
the outgoing provider configuration.  The source method reads
`SkipSignatureValidation`, `IDPCertificateStore`, `Clock`, `SPKeyStore` and
`AssertionConsumerServiceURL` and assigns none of them (nor any other shared
field); its only intra-call mutable state — the document tree and the lazily
resolved decryption certificate — is created afresh inside the call, so the
outgoing configuration is the incoming record. -/
def ValidateEncodedResponseRun (caps : Capabilities) (sp : SAMLServiceProvider)
    (encodedResponse : String) :
    Except SamlError TypedResponse × SAMLServiceProvider :=
  (ValidateEncodedResponse caps sp encodedResponse, sp)

/-- Demonstration IdP certificate store. -/
def demoStore : IDPCertStore := { storeId := 0 }

/-- Demonstration clock. -/
def demoClock : SAMLClock := { now := 0 }

/-- Demonstration decryption certificate. -/
def demoCert : TLSCertificate := { certificate := [[1]], privateKey := 7 }

/-- Demonstration service-provider configuration with signature checking
enabled and a TLS certificate key store. -/
def demoSP : SAMLServiceProvider :=
  { idpCertificateStore := demoStore
    clock := demoClock
    assertionConsumerServiceURL := "sp.example/acs"
    skipSignatureValidation := false
    spKeyStore := some (.tlsCertKeyStore demoCert) }

/-- Demonstration provider with no key store configured. -/
def demoSPNoKey : SAMLServiceProvider := { demoSP with spKeyStore := none }

/-- Demonstration assertion element. -/
def asn1 : Element := .mk SAMLAssertionNamespace AssertionTag "a1" []

/-- Second demonstration assertion element. -/
def asn2 : Element := .mk SAMLAssertionNamespace AssertionTag "a2" []

/-- Validated replacement for the first demonstration assertion. -/
def asn1v : Element := .mk SAMLAssertionNamespace AssertionTag "a1-validated" []

/-- Demonstration encrypted-assertion element. -/
def encAsn : Element := .mk SAMLAssertionNamespace EncryptedAssertionTag "enc" []

/-- Demonstration plaintext assertion obtained by decrypting `encAsn`. -/
def plainAsn : Element := .mk SAMLAssertionNamespace AssertionTag "plain" []

/-- Demonstration wrapper element hiding an assertion one level too deep. -/
def wrapEl : Element := .mk "urn:p" "Wrapper" "" [asn1]

/-- Demonstration response whose only assertion sits under a wrapper element
rather than directly under the response. -/
def respWrapped : Element := .mk "urn:p" "Response" "" [wrapEl]

/-- Demonstration response with one signed and one unsigned assertion. -/
def respTwoAsn : Element := .mk "urn:p" "Response" "" [asn1, asn2]

/-- Demonstration response with a single encrypted assertion. -/
def respEnc : Element := .mk "urn:p" "Response" "" [encAsn]

/-- Demonstration response with no children at all. -/
def respEmpty : Element := .mk "urn:p" "Response" "" []

/-- Baseline demonstration capabilities: decoding fails, parsing yields no
root, detachment is the identity, decryption succeeds with fixed bytes, the
validation capability reports a missing signature on everything, and
unmarshalling produces a fixed typed response matching `demoSP`. -/
def demoCaps : Capabilities :=
  { base64Decode := fun _ => .error "illegal base64 data"
    inflate := fun _ => .error "flate: corrupt input"
    readFromBytes := fun _ => .ok none
    nsDetach := fun e => .ok e
    unmarshalEncryptedAssertion := fun _ => .ok { payload := "enc" }
    decryptBytes := fun _ _ => .ok [1]
    validate := fun _ _ => (none, some .errMissingSignature)
    unmarshalResponse := fun _ =>
      .ok { destination := "sp.example/acs", version := "2.0", body := "demo" }
    extendedValidation := fun _ => .ok () }

/-- Concrete decryption-pass state that already carries a resolved
certificate. -/
def cachedState : DecryptState :=
  { respChildren := [encAsn], decryptCert := some demoCert }

/-- Demonstration typed response matching the demonstration provider's
configured endpoint and the supported protocol version. -/
def demoResp : TypedResponse :=
  { destination := "sp.example/acs", version := "2.0", body := "demo" }

/-- Demonstration capabilities for a response whose envelope signature
validates: decoding yields the empty response element, the validation
capability returns a validated copy of it, and unmarshalling yields the
matching typed response. -/
def signedEnvelopeCaps : Capabilities :=
  { base64Decode := fun _ => .ok [0]
    inflate := fun _ => .error "flate: corrupt input"
    readFromBytes := fun b => if b = [0] then .ok (some respEmpty) else .ok none
    nsDetach := fun e => .ok e
    unmarshalEncryptedAssertion := fun _ => .ok { payload := "enc" }
    decryptBytes := fun _ _ => .ok [1]
    validate := fun _ _ => (some respEmpty, none)
    unmarshalResponse := fun _ => .ok demoResp
    extendedValidation := fun _ => .ok () }

/-- Demonstration capabilities under which decrypting the demonstration
encrypted assertion fully succeeds, producing `plainAsn`. -/
def decryptOkCaps : Capabilities :=
  { base64Decode := fun _ => .ok [0]
    inflate := fun _ => .error "flate: corrupt input"
    readFromBytes := fun b => if b = [1] then .ok (some plainAsn) else .ok none
    nsDetach := fun e => .ok e
    unmarshalEncryptedAssertion := fun _ => .ok { payload := "enc" }
    decryptBytes := fun _ _ => .ok [1]
    validate := fun _ _ => (none, some .errMissingSignature)
    unmarshalResponse := fun _ => .ok demoResp
    extendedValidation := fun _ => .ok () }

/-- Demonstration capabilities under which the first demonstration assertion
validates (yielding `asn1v`) and every other element reports a missing
signature. -/
def mixedCaps : Capabilities :=
  { base64Decode := fun _ => .ok [0]
    inflate := fun _ => .error "flate: corrupt input"
    readFromBytes := fun _ => .ok (some respTwoAsn)
    nsDetach := fun e => .ok e
    unmarshalEncryptedAssertion := fun _ => .ok { payload := "enc" }
    decryptBytes := fun _ _ => .ok [1]
    validate := fun _ e =>
      if Element.beq e asn1 then (some asn1v, none)
      else (none, some .errMissingSignature)
    unmarshalResponse := fun _ => .ok demoResp
    extendedValidation := fun _ => .ok () }

/-- Demonstration capabilities whose decoded payload is raw-deflate-compressed
XML: the direct parse of the decoded bytes fails and the parse of the
decompressed bytes yields the empty response element. -/
def deflateCaps : Capabilities :=
  { base64Decode := fun _ => .ok [2]
    inflate := fun b => if b = [2] then .ok [0] else .error "flate: corrupt input"
    readFromBytes := fun b =>
      if b = [0] then .ok (some respEmpty) else .error "malformed XML"
    nsDetach := fun e => .ok e
    unmarshalEncryptedAssertion := fun _ => .ok { payload := "enc" }
    decryptBytes := fun _ _ => .ok [1]
    validate := fun _ _ => (some respEmpty, none)
    unmarshalResponse := fun _ => .ok demoResp
    extendedValidation := fun _ => .ok () }

/-- Stepping the assertion-iteration with an `Except`-valued handler stops at
the first failing element: successful steps over a prefix followed by a
failing step yield that failure for the whole iteration. -/
theorem iterateHandler_append_error {σ : Type}
    (f : σ → Element × Element → Except SamlError σ) :
    ∀ (pre : List (Element × Element)) (st st2 : σ) (pc : Element × Element)
      (post : List (Element × Element)) (e : SamlError),
    iterateHandler f st pre = .ok st2 →
    f st2 pc = .error e →
    iterateHandler f st (pre ++ pc :: post) = .error e := by
  intro pre
  induction pre with
  | nil =>
    intro st st2 pc post e hpre hstep
    simp [iterateHandler] at hpre
    subst hpre
    simp [iterateHandler, hstep]
  | cons q rest ih =>
    intro st st2 pc post e hpre hstep
    simp only [iterateHandler] at hpre ⊢
    cases hq : f st q with
    | error e2 => rw [hq] at hpre; exact absurd hpre (by simp)
    | ok st1 =>
      rw [hq] at hpre
      simp only [List.cons_append]
      exact ih st1 st2 pc post e hpre hstep

/-- One decryption step that starts with a resolved certificate keeps it. -/
theorem decryptAssertion_cache_some
    (caps : Capabilities) (sp : SAMLServiceProvider) (el : Element)
    (st : DecryptState) (pc : Element × Element) (st2 : DecryptState)
    (cert : TLSCertificate)
    (hc : st.decryptCert = some cert)
    (h : decryptAssertion caps sp el st pc = .ok st2) :
    st2.decryptCert = some cert := by
  unfold decryptAssertion at h
  rw [hc] at h
  repeat' split at h
  all_goals simp_all
  all_goals (cases h; rfl)

/-- A response element under which the search locates no encrypted-assertion
element is passed through the decryption pass unchanged. -/
theorem decryptAssertions_of_no_encrypted
    (caps : Capabilities) (sp : SAMLServiceProvider) (el : Element)
    (hfind : findDesc SAMLAssertionNamespace EncryptedAssertionTag el = []) :
    decryptAssertions caps sp el = .ok (el.withChildren el.children) := by
  unfold decryptAssertions
  rw [hfind]
  simp [iterateHandler, initDecryptState]

/-- A response element under which the search locates no assertion element
makes the signature-enforcement pass report the missing-signature sentinel
(no assertion was signed). -/
theorem validateAssertionSignatures_of_no_assertions
    (caps : Capabilities) (sp : SAMLServiceProvider) (el : Element)
    (hfind : findDesc SAMLAssertionNamespace AssertionTag el = []) :
    validateAssertionSignatures caps sp el = .error .errMissingSignature := by
  unfold validateAssertionSignatures
  rw [hfind]
  simp [iterateHandler, initAssertionState]

/-- C3: an assertion or encrypted-assertion element located by either pass
with a direct parent other than the response element makes the handler abort
with the unexpected-parent structural error, whatever the capabilities do (so
no detachment, decryption or signature validation is attempted on it); when
such an element is the first one located, the whole pass fails with that
error. -/
theorem c3_unexpected_parent_is_structural_error
    (caps : Capabilities) (sp : SAMLServiceProvider) (el p c : Element)
    (st : DecryptState) (stA : AssertionValidationState)
    (hp : Element.beq p el = false) :
    decryptAssertion caps sp el st (p, c) =
      .error (.encryptedAssertionUnexpectedParent p.tag) ∧
    validateAssertion caps sp el stA (p, c) =
      .error (.assertionUnexpectedParent p.tag) ∧
    (∀ rest, findDesc SAMLAssertionNamespace EncryptedAssertionTag el = (p, c) :: rest →
      decryptAssertions caps sp el =
        .error (.encryptedAssertionUnexpectedParent p.tag)) ∧
    (∀ rest, findDesc SAMLAssertionNamespace AssertionTag el = (p, c) :: rest →
      validateAssertionSignatures caps sp el =
        .error (.assertionUnexpectedParent p.tag)) := by
  have hdec : decryptAssertion caps sp el st (p, c) =
      .error (.encryptedAssertionUnexpectedParent p.tag) := by
    unfold decryptAssertion
    simp [hp]
  have hval : validateAssertion caps sp el stA (p, c) =
      .error (.assertionUnexpectedParent p.tag) := by
    unfold validateAssertion
    simp [hp]
  refine ⟨hdec, hval, ?_, ?_⟩
  · intro rest hfind
    unfold decryptAssertions
    rw [hfind]
    have h1 : decryptAssertion caps sp el (initDecryptState el) (p, c) =
        .error (.encryptedAssertionUnexpectedParent p.tag) := by
      unfold decryptAssertion
      simp [hp]
    simp [iterateHandler, h1]
  · intro rest hfind
    unfold validateAssertionSignatures
    rw [hfind]
    have h1 : validateAssertion caps sp el (initAssertionState el) (p, c) =
        .error (.assertionUnexpectedParent p.tag) := by
      unfold validateAssertion
      simp [hp]
    simp [iterateHandler, h1]

/-- Witness for C3 at a concrete wrapped response: the assertion sits under a
wrapper element, and the signature-enforcement pass rejects it with the
unexpected-parent error naming the wrapper. -/
theorem c3_witness :
    Element.beq wrapEl respWrapped = false ∧
    validateAssertionSignatures demoCaps demoSP respWrapped =
      .error (.assertionUnexpectedParent "Wrapper") := by
  have hp : Element.beq wrapEl respWrapped = false := by
    simp [Element.beq, wrapEl, respWrapped]
  have hfind : findDesc SAMLAssertionNamespace AssertionTag respWrapped =
      (wrapEl, asn1) :: [] := by
    simp [findDesc, findDescAux, respWrapped, wrapEl, asn1, Element.children,
      Element.ns, Element.tag, SAMLAssertionNamespace, AssertionTag]
  have h := (c3_unexpected_parent_is_structural_error demoCaps demoSP respWrapped
    wrapEl asn1 (initDecryptState respWrapped) (initAssertionState respWrapped)
    hp).2.2.2 [] hfind
  exact ⟨hp, by rw [h]; rfl⟩

/-- A resolved certificate in the decryption-pass state survives any number of
further successful steps unchanged. -/
theorem iterate_decrypt_cache_stable
    (caps : Capabilities) (sp : SAMLServiceProvider) (el : Element)
    (cert : TLSCertificate) :
    ∀ (pairs : List (Element × Element)) (st st2 : DecryptState),
    st.decryptCert = some cert →
    iterateHandler (decryptAssertion caps sp el) st pairs = .ok st2 →
    st2.decryptCert = some cert := by
  intro pairs
  induction pairs with
  | nil =>
    intro st st2 hc h
    simp [iterateHandler] at h
    subst h
    exact hc
  | cons q rest ih =>
    intro st st2 hc h
    simp only [iterateHandler] at h
    cases hq : decryptAssertion caps sp el st q with
    | error e => rw [hq] at h; exact absurd h (by simp)
    | ok st1 =>
      rw [hq] at h
      exact ih st1 st2 (decryptAssertion_cache_some caps sp el st q st1 cert hc hq) h

/-- C8: decryption key material is resolved lazily and at most once per call.
Resolution fails when no key store is configured; a step that starts with a
resolved certificate never consults the provider's key store (its outcome is
the same for any two provider configurations) and keeps the cached
certificate; a step that starts unresolved and succeeds caches exactly the
certificate the key-store lookup returned; a step that reaches the resolution
step unresolved with no key store configured fails with the wrapped
no-certificates error; and the cached certificate is reused unchanged for the
rest of the pass. -/
theorem c8_lazy_single_keystore_lookup
    (caps : Capabilities) (sp sp1 sp2 : SAMLServiceProvider) (el : Element)
    (st st2 : DecryptState) (pc : Element × Element)
    (pairs : List (Element × Element)) (cert : TLSCertificate)
    (detached : Element) (ea : EncryptedAssertion) :
    (sp.spKeyStore = none → sp.getDecryptCert = .error .noDecryptionCertsAvailable) ∧
    (st.decryptCert = some cert →
      decryptAssertion caps sp1 el st pc = decryptAssertion caps sp2 el st pc) ∧
    (st.decryptCert = some cert →
      decryptAssertion caps sp el st pc = .ok st2 → st2.decryptCert = some cert) ∧
    (st.decryptCert = none → decryptAssertion caps sp el st pc = .ok st2 →
      ∃ c2, sp.getDecryptCert = .ok c2 ∧ st2.decryptCert = some c2) ∧
    (st.decryptCert = none → sp.spKeyStore = none →
      Element.beq pc.1 el = true →
      caps.nsDetach pc.2 = .ok detached →
      caps.unmarshalEncryptedAssertion detached = .ok ea →
      decryptAssertion caps sp el st pc =
        .error (.decryptCertWrap .noDecryptionCertsAvailable)) ∧
    (st.decryptCert = some cert →
      iterateHandler (decryptAssertion caps sp el) st pairs = .ok st2 →
      st2.decryptCert = some cert) := by
  refine ⟨?_, ?_, ?_, ?_, ?_, ?_⟩
  · intro hks
    unfold SAMLServiceProvider.getDecryptCert
    rw [hks]
  · intro hc
    unfold decryptAssertion
    rw [hc]
  · intro hc h
    exact decryptAssertion_cache_some caps sp el st pc st2 cert hc h
  · intro hc h
    unfold decryptAssertion at h
    rw [hc] at h
    cases hget : sp.getDecryptCert with
    | error e =>
      rw [hget] at h
      repeat' split at h
      all_goals simp_all
    | ok c2 =>
      rw [hget] at h
      refine ⟨c2, rfl, ?_⟩
      repeat' split at h
      all_goals simp_all
      cases h
      rfl
  · intro hc hks hbeq hdet hunm
    have hget : sp.getDecryptCert = .error .noDecryptionCertsAvailable := by
      unfold SAMLServiceProvider.getDecryptCert
      rw [hks]
    unfold decryptAssertion
    simp [hbeq, hdet, hunm, hc, hget]
  · intro hc h
    exact iterate_decrypt_cache_stable caps sp el cert pairs st st2 hc h

/-- Witness for C8 at concrete inputs: the provider without a key store fails
resolution; with a cached certificate the step ignores the key store (same
outcome for the keyless and the keyed provider); and an unresolved step over
the keyless provider fails with the wrapped no-certificates error. -/
theorem c8_witness :
    demoSPNoKey.getDecryptCert = .error .noDecryptionCertsAvailable ∧
    decryptAssertion demoCaps demoSPNoKey respEnc cachedState (respEnc, encAsn) =
      decryptAssertion demoCaps demoSP respEnc cachedState (respEnc, encAsn) ∧
    decryptAssertion demoCaps demoSPNoKey respEnc (initDecryptState respEnc)
        (respEnc, encAsn) =
      .error (.decryptCertWrap .noDecryptionCertsAvailable) := by
  have h1 := (c8_lazy_single_keystore_lookup demoCaps demoSPNoKey demoSPNoKey demoSP
    respEnc cachedState cachedState (respEnc, encAsn) [] demoCert encAsn
    { payload := "enc" }).1 rfl
  have h2 := (c8_lazy_single_keystore_lookup demoCaps demoSPNoKey demoSPNoKey demoSP
    respEnc cachedState cachedState (respEnc, encAsn) [] demoCert encAsn
    { payload := "enc" }).2.1 rfl
  have hbeq : Element.beq respEnc respEnc = true := by
    simp [Element.beq, Element.beqList, respEnc, encAsn]
  have h3 := (c8_lazy_single_keystore_lookup demoCaps demoSPNoKey demoSPNoKey demoSP
    respEnc (initDecryptState respEnc) cachedState (respEnc, encAsn) [] demoCert
    encAsn { payload := "enc" }).2.2.2.2.1 rfl rfl hbeq rfl rfl
  exact ⟨h1, h2, h3⟩

/-- C10: a response with no encrypted-assertion elements never consults the
key provider — the decryption pass succeeds and leaves the children unchanged
for every provider configuration (in particular the outcome is independent of
the key store), the wrapped no-decryption-certs error implies at least one
encrypted assertion was located, and the full validation call can succeed with
no key store configured. -/
theorem c10_no_encrypted_assertions_no_key_lookup :
    (∀ (caps : Capabilities) (sp : SAMLServiceProvider) (el : Element),
      findDesc SAMLAssertionNamespace EncryptedAssertionTag el = [] →
      decryptAssertions caps sp el = .ok (el.withChildren el.children)) ∧
    (∀ (caps : Capabilities) (sp1 sp2 : SAMLServiceProvider) (el : Element),
      findDesc SAMLAssertionNamespace EncryptedAssertionTag el = [] →
      decryptAssertions caps sp1 el = decryptAssertions caps sp2 el) ∧
    (∀ (caps : Capabilities) (sp : SAMLServiceProvider) (el : Element),
      decryptAssertions caps sp el =
        .error (.decryptCertWrap .noDecryptionCertsAvailable) →
      findDesc SAMLAssertionNamespace EncryptedAssertionTag el ≠ []) ∧
    (demoSPNoKey.spKeyStore = none ∧
      ValidateEncodedResponse signedEnvelopeCaps demoSPNoKey "ZW5j" = .ok demoResp) := by
  have h1 : ∀ (caps : Capabilities) (sp : SAMLServiceProvider) (el : Element),
      findDesc SAMLAssertionNamespace EncryptedAssertionTag el = [] →
      decryptAssertions caps sp el = .ok (el.withChildren el.children) := by
    intro caps sp el hfind
    unfold decryptAssertions
    rw [hfind]
    simp [iterateHandler, initDecryptState]
  refine ⟨h1, ?_, ?_, rfl, ?_⟩
  · intro caps sp1 sp2 el hfind
    rw [h1 caps sp1 el hfind, h1 caps sp2 el hfind]
  · intro caps sp el herr hfind
    rw [h1 caps sp el hfind] at herr
    exact absurd herr (by simp)
  · simp [ValidateEncodedResponse, decodeResponse, decodeResponseDoc,
      signedEnvelopeCaps, afterDecode, validateElementSignature, demoSPNoKey,
      demoSP, afterEnvelopeValidation, decryptAssertions, findDesc, findDescAux,
      respEmpty, Element.children, initDecryptState, iterateHandler,
      Element.withChildren, validateAssertionSignatures, initAssertionState,
      unmarshalAndValidate, spValidate, validateResponseAttributes, demoResp,
      SAMLServiceProvider.validationContext, demoStore, demoClock]

/-- Witness for C10 at a concrete response with no encrypted assertions: the
decryption pass over the keyless provider succeeds and leaves the two
assertion children in place. -/
theorem c10_witness :
    findDesc SAMLAssertionNamespace EncryptedAssertionTag respTwoAsn = [] ∧
    decryptAssertions demoCaps demoSPNoKey respTwoAsn =
      .ok (respTwoAsn.withChildren respTwoAsn.children) := by
  have hfind : findDesc SAMLAssertionNamespace EncryptedAssertionTag respTwoAsn = [] := by
    simp [findDesc, findDescAux, respTwoAsn, asn1, asn2, Element.children,
      Element.ns, Element.tag, SAMLAssertionNamespace, AssertionTag,
      EncryptedAssertionTag]
  exact ⟨hfind,
    c10_no_encrypted_assertions_no_key_lookup.1 demoCaps demoSPNoKey respTwoAsn hfind⟩

/-- C5: a successful decryption step removes the original encrypted element
from the response's children and appends exactly the assertion parsed from
the decrypted bytes; and a failure of any step on any located element (after
the earlier elements succeeded) makes the whole decryption pass return that
error. -/
theorem c5_decrypt_replaces_or_aborts
    (caps : Capabilities) (sp : SAMLServiceProvider) (el : Element) :
    (∀ (st st2 : DecryptState) (p c : Element),
      decryptAssertion caps sp el st (p, c) = .ok st2 →
      ∃ detached ea cert raw rest newAsn,
        caps.nsDetach c = .ok detached ∧
        caps.unmarshalEncryptedAssertion detached = .ok ea ∧
        caps.decryptBytes ea cert = .ok raw ∧
        caps.readFromBytes raw = .ok (some newAsn) ∧
        removeChildFirst st.respChildren c = some rest ∧
        st2 = { respChildren := rest ++ [newAsn], decryptCert := some cert }) ∧
    (∀ (pre post : List (Element × Element)) (pc : Element × Element)
       (st2 : DecryptState) (e : SamlError),
      findDesc SAMLAssertionNamespace EncryptedAssertionTag el = pre ++ pc :: post →
      iterateHandler (decryptAssertion caps sp el) (initDecryptState el) pre = .ok st2 →
      decryptAssertion caps sp el st2 pc = .error e →
      decryptAssertions caps sp el = .error e) := by
  constructor
  · intro st st2 p c h
    unfold decryptAssertion at h
    repeat' split at h
    all_goals first
      | (exfalso; exact Except.noConfusion h)
      | (injection h with h2; subst h2;
         exact ⟨_, _, _, _, _, _, by assumption, by assumption, by assumption,
           by assumption, by assumption, rfl⟩)
  · intro pre post pc st2 e hfind hpre hstep
    unfold decryptAssertions
    rw [hfind, iterateHandler_append_error _ pre _ st2 pc post e hpre hstep]

/-- Witness for C5 at concrete inputs: a fully successful decryption step over
`respEnc` decomposes into detach, unmarshal, decrypt, parse, removal of the
encrypted element and appending of the plaintext assertion; and with no key
store the pass as a whole aborts with the wrapped resolution error. -/
theorem c5_witness :
    (∃ detached ea cert raw rest newAsn,
      decryptOkCaps.nsDetach encAsn = .ok detached ∧
      decryptOkCaps.unmarshalEncryptedAssertion detached = .ok ea ∧
      decryptOkCaps.decryptBytes ea cert = .ok raw ∧
      decryptOkCaps.readFromBytes raw = .ok (some newAsn) ∧
      removeChildFirst (initDecryptState respEnc).respChildren encAsn = some rest ∧
      ({ respChildren := [plainAsn], decryptCert := some demoCert } : DecryptState) =
        { respChildren := rest ++ [newAsn], decryptCert := some cert }) ∧
    decryptAssertions demoCaps demoSPNoKey respEnc =
      .error (.decryptCertWrap .noDecryptionCertsAvailable) := by
  have hbeq : Element.beq respEnc respEnc = true := by
    simp [Element.beq, Element.beqList, respEnc, encAsn]
  constructor
  · have hok : decryptAssertion decryptOkCaps demoSP respEnc (initDecryptState respEnc)
        (respEnc, encAsn) =
        .ok { respChildren := [plainAsn], decryptCert := some demoCert } := by
      simp [decryptAssertion, hbeq, decryptOkCaps, initDecryptState, respEnc,
        Element.children, SAMLServiceProvider.getDecryptCert, demoSP,
        removeChildFirst, Element.beq, Element.beqList, encAsn, demoCert]
    exact (c5_decrypt_replaces_or_aborts decryptOkCaps demoSP respEnc).1
      (initDecryptState respEnc) _ respEnc encAsn hok
  · have hfind : findDesc SAMLAssertionNamespace EncryptedAssertionTag respEnc =
        [] ++ (respEnc, encAsn) :: [] := by
      simp [findDesc, findDescAux, respEnc, encAsn, Element.children, Element.ns,
        Element.tag, SAMLAssertionNamespace, EncryptedAssertionTag]
    have hstep : decryptAssertion demoCaps demoSPNoKey respEnc
        (initDecryptState respEnc) (respEnc, encAsn) =
        .error (.decryptCertWrap .noDecryptionCertsAvailable) := by
      simp [decryptAssertion, hbeq, demoCaps, initDecryptState,
        SAMLServiceProvider.getDecryptCert, demoSPNoKey, demoSP]
    exact (c5_decrypt_replaces_or_aborts demoCaps demoSPNoKey respEnc).2
      [] [] (respEnc, encAsn) (initDecryptState respEnc) _ hfind
      (by simp [iterateHandler]) hstep

/-- C2: when the assertion-signature pass ends its iteration with both the
signed and the unsigned counter nonzero it fails with the mixed
signed/unsigned error, and that failure is terminal for the rest of the
validation call whatever the envelope-validated flag is. -/
theorem c2_mixed_assertions_rejected
    (caps : Capabilities) (sp : SAMLServiceProvider) (el0 el : Element)
    (s : AssertionValidationState) (validated : Bool) :
    (iterateHandler (validateAssertion caps sp el) (initAssertionState el)
        (findDesc SAMLAssertionNamespace AssertionTag el) = .ok s →
      0 < s.signedAssertions → 0 < s.unsignedAssertions →
      validateAssertionSignatures caps sp el =
        .error .mixedSignedAndUnsignedAssertions) ∧
    (sp.skipSignatureValidation = false →
      decryptAssertions caps sp el0 = .ok el →
      validateAssertionSignatures caps sp el =
        .error .mixedSignedAndUnsignedAssertions →
      afterEnvelopeValidation caps sp el0 validated =
        .error .mixedSignedAndUnsignedAssertions) := by
  constructor
  · intro hiter hs hu
    unfold validateAssertionSignatures
    rw [hiter]
    simp [hs, hu]
  · intro hskip hdecr hval
    unfold afterEnvelopeValidation
    simp [hdecr, hskip, hval]

/-- Witness for C2 at a concrete response with one signed and one unsigned
assertion: the pass fails with the mixed error and the failure is terminal
both with and without a validated envelope. -/
theorem c2_witness :
    validateAssertionSignatures mixedCaps demoSP respTwoAsn =
      .error .mixedSignedAndUnsignedAssertions ∧
    afterEnvelopeValidation mixedCaps demoSP respTwoAsn true =
      .error .mixedSignedAndUnsignedAssertions ∧
    afterEnvelopeValidation mixedCaps demoSP respTwoAsn false =
      .error .mixedSignedAndUnsignedAssertions := by
  have hfind : findDesc SAMLAssertionNamespace AssertionTag respTwoAsn =
      [(respTwoAsn, asn1), (respTwoAsn, asn2)] := by
    simp [findDesc, findDescAux, respTwoAsn, asn1, asn2, Element.children,
      Element.ns, Element.tag, SAMLAssertionNamespace, AssertionTag]
  have hstep1 : validateAssertion mixedCaps demoSP respTwoAsn
      (initAssertionState respTwoAsn) (respTwoAsn, asn1) =
      .ok { respChildren := [asn2, asn1v], signedAssertions := 1,
            unsignedAssertions := 0 } := by
    simp [validateAssertion, mixedCaps, initAssertionState, respTwoAsn, asn1, asn2,
      asn1v, Element.beq, Element.beqList, Element.children, removeChildFirst]
  have hstep2 : validateAssertion mixedCaps demoSP respTwoAsn
      { respChildren := [asn2, asn1v], signedAssertions := 1,
        unsignedAssertions := 0 } (respTwoAsn, asn2) =
      .ok { respChildren := [asn2, asn1v], signedAssertions := 1,
            unsignedAssertions := 1 } := by
    simp [validateAssertion, mixedCaps, respTwoAsn, asn1, asn2,
      asn1v, Element.beq, Element.beqList, Element.children, removeChildFirst]
  have hiter : iterateHandler (validateAssertion mixedCaps demoSP respTwoAsn)
      (initAssertionState respTwoAsn)
      (findDesc SAMLAssertionNamespace AssertionTag respTwoAsn) =
      .ok { respChildren := [asn2, asn1v], signedAssertions := 1,
            unsignedAssertions := 1 } := by
    rw [hfind]
    simp only [iterateHandler, hstep1, hstep2]
  have hval := (c2_mixed_assertions_rejected mixedCaps demoSP respTwoAsn respTwoAsn
    { respChildren := [asn2, asn1v], signedAssertions := 1, unsignedAssertions := 1 }
    true).1 hiter (by decide) (by decide)
  have hfindE : findDesc SAMLAssertionNamespace EncryptedAssertionTag respTwoAsn = [] := by
    simp [findDesc, findDescAux, respTwoAsn, asn1, asn2, Element.children,
      Element.ns, Element.tag, SAMLAssertionNamespace, AssertionTag,
      EncryptedAssertionTag]
  have hdecr : decryptAssertions mixedCaps demoSP respTwoAsn = .ok respTwoAsn :=
    (decryptAssertions_of_no_encrypted mixedCaps demoSP respTwoAsn hfindE).trans rfl
  refine ⟨hval, ?_, ?_⟩
  · exact (c2_mixed_assertions_rejected mixedCaps demoSP respTwoAsn respTwoAsn
      { respChildren := [asn2, asn1v], signedAssertions := 1, unsignedAssertions := 1 }
      true).2 rfl hdecr hval
  · exact (c2_mixed_assertions_rejected mixedCaps demoSP respTwoAsn respTwoAsn
      { respChildren := [asn2, asn1v], signedAssertions := 1, unsignedAssertions := 1 }
      false).2 rfl hdecr hval

/-- C1: when signature checking is enabled and the assertion-signature pass
reports the missing-signature sentinel, the call fails with the
must-be-signed error exactly when the envelope was not signature-validated,
and otherwise proceeds to unmarshal the working root into the typed
response. -/
theorem c1_missing_signature_gated_on_envelope
    (caps : Capabilities) (sp : SAMLServiceProvider) (el el1 : Element)
    (hskip : sp.skipSignatureValidation = false)
    (hdec : decryptAssertions caps sp el = .ok el1)
    (hasn : validateAssertionSignatures caps sp el1 = .error .errMissingSignature) :
    afterEnvelopeValidation caps sp el false =
      .error .responseAndAssertionsMustBeSigned ∧
    afterEnvelopeValidation caps sp el true = unmarshalAndValidate caps sp el1 := by
  constructor <;>
    · unfold afterEnvelopeValidation
      simp [hdec, hskip, hasn]

/-- Witness for C1 at a concrete empty response with a validly signed
envelope: without envelope validation the call fails with the must-be-signed
error; with it, it proceeds to unmarshalling and returns the typed
response. -/
theorem c1_witness :
    afterEnvelopeValidation signedEnvelopeCaps demoSP respEmpty false =
      .error .responseAndAssertionsMustBeSigned ∧
    afterEnvelopeValidation signedEnvelopeCaps demoSP respEmpty true =
      unmarshalAndValidate signedEnvelopeCaps demoSP respEmpty ∧
    unmarshalAndValidate signedEnvelopeCaps demoSP respEmpty = .ok demoResp := by
  have hfindE : findDesc SAMLAssertionNamespace EncryptedAssertionTag respEmpty = [] := by
    simp [findDesc, findDescAux, respEmpty, Element.children]
  have hfindA : findDesc SAMLAssertionNamespace AssertionTag respEmpty = [] := by
    simp [findDesc, findDescAux, respEmpty, Element.children]
  have hdec : decryptAssertions signedEnvelopeCaps demoSP respEmpty = .ok respEmpty :=
    (decryptAssertions_of_no_encrypted signedEnvelopeCaps demoSP respEmpty
      hfindE).trans rfl
  have hasn : validateAssertionSignatures signedEnvelopeCaps demoSP respEmpty =
      .error .errMissingSignature :=
    validateAssertionSignatures_of_no_assertions signedEnvelopeCaps demoSP respEmpty
      hfindA
  have h := c1_missing_signature_gated_on_envelope signedEnvelopeCaps demoSP
    respEmpty respEmpty rfl hdec hasn
  refine ⟨h.1, h.2, ?_⟩
  simp [unmarshalAndValidate, signedEnvelopeCaps, spValidate,
    validateResponseAttributes, demoResp, demoSP]

/-- C4: with signature checking enabled, validating the decoded root element
behaves as follows: the missing-signature sentinel keeps the original decoded
root with the envelope flag unset; any other reported error is terminal; a
nil validated element with no error is the missing-transformed-response
error; and success replaces the working root by the validated element with
the envelope flag set. -/
theorem c4_root_validation_behavior
    (caps : Capabilities) (sp : SAMLServiceProvider) (enc : String) (el0 : Element)
    (hskip : sp.skipSignatureValidation = false)
    (hdec : decodeResponse caps enc = .ok el0) :
    (∀ v, validateElementSignature caps sp el0 = (v, some .errMissingSignature) →
      ValidateEncodedResponse caps sp enc =
        afterEnvelopeValidation caps sp el0 false) ∧
    (∀ v e, e ≠ .errMissingSignature →
      validateElementSignature caps sp el0 = (v, some e) →
      ValidateEncodedResponse caps sp enc = .error e) ∧
    (validateElementSignature caps sp el0 = (none, none) →
      ValidateEncodedResponse caps sp enc = .error .missingTransformedResponse) ∧
    (∀ v, validateElementSignature caps sp el0 = (some v, none) →
      ValidateEncodedResponse caps sp enc =
        afterEnvelopeValidation caps sp v true) := by
  have hmain : ValidateEncodedResponse caps sp enc = afterDecode caps sp el0 := by
    unfold ValidateEncodedResponse
    rw [hdec]
  refine ⟨?_, ?_, ?_, ?_⟩
  · intro v hval
    rw [hmain]
    unfold afterDecode
    rw [hskip, hval]
    simp
  · intro v e hne hval
    rw [hmain]
    unfold afterDecode
    rw [hskip, hval]
    simp [hne]
  · intro hval
    rw [hmain]
    unfold afterDecode
    rw [hskip, hval]
    simp
  · intro v hval
    rw [hmain]
    unfold afterDecode
    rw [hskip, hval]
    simp

/-- Witness for C4 at concrete inputs: a decoded empty response whose
validation capability returns a validated copy continues the pipeline from
that validated element with the envelope flag set. -/
theorem c4_witness :
    ValidateEncodedResponse signedEnvelopeCaps demoSP "ZW5j" =
      afterEnvelopeValidation signedEnvelopeCaps demoSP respEmpty true := by
  have hdec : decodeResponse signedEnvelopeCaps "ZW5j" = .ok respEmpty := by
    simp [decodeResponse, decodeResponseDoc, signedEnvelopeCaps]
  exact (c4_root_validation_behavior signedEnvelopeCaps demoSP "ZW5j" respEmpty rfl
    hdec).2.2.2 respEmpty rfl

/-- C6: the decoder base64-decodes the encoded response (a decode failure is
terminal for the whole call and yields no typed response), then parses the
bytes as XML directly; if the direct parse fails it decompresses the bytes as
raw deflate and parses the result, failing if decompression or the second
parse fails; either way, a parsed document without a root element yields the
distinct unable-to-parse error and a root element is handed onward. -/
theorem c6_decoder_behavior
    (caps : Capabilities) (sp : SAMLServiceProvider) (enc : String) :
    (∀ e, caps.base64Decode enc = .error e →
      decodeResponse caps enc = .error (.base64DecodeError e) ∧
      ValidateEncodedResponse caps sp enc = .error (.base64DecodeError e)) ∧
    (∀ raw el, caps.base64Decode enc = .ok raw →
      caps.readFromBytes raw = .ok (some el) →
      decodeResponse caps enc = .ok el) ∧
    (∀ raw, caps.base64Decode enc = .ok raw →
      caps.readFromBytes raw = .ok none →
      decodeResponse caps enc = .error .unableToParseResponse) ∧
    (∀ raw e1 e2, caps.base64Decode enc = .ok raw →
      caps.readFromBytes raw = .error e1 →
      caps.inflate raw = .error e2 →
      decodeResponse caps enc = .error (.inflateError e2)) ∧
    (∀ raw e1 buf e3, caps.base64Decode enc = .ok raw →
      caps.readFromBytes raw = .error e1 →
      caps.inflate raw = .ok buf →
      caps.readFromBytes buf = .error e3 →
      decodeResponse caps enc = .error (.xmlParseError e3)) ∧
    (∀ raw e1 buf el, caps.base64Decode enc = .ok raw →
      caps.readFromBytes raw = .error e1 →
      caps.inflate raw = .ok buf →
      caps.readFromBytes buf = .ok (some el) →
      decodeResponse caps enc = .ok el) ∧
    (∀ raw e1 buf, caps.base64Decode enc = .ok raw →
      caps.readFromBytes raw = .error e1 →
      caps.inflate raw = .ok buf →
      caps.readFromBytes buf = .ok none →
      decodeResponse caps enc = .error .unableToParseResponse) := by
  refine ⟨?_, ?_, ?_, ?_, ?_, ?_, ?_⟩
  · intro e hb
    have hd : decodeResponse caps enc = .error (.base64DecodeError e) := by
      unfold decodeResponse decodeResponseDoc
      simp [hb]
    refine ⟨hd, ?_⟩
    unfold ValidateEncodedResponse
    simp [hd]
  · intro raw el hb hp
    unfold decodeResponse decodeResponseDoc
    simp [hb, hp]
  · intro raw hb hp
    unfold decodeResponse decodeResponseDoc
    simp [hb, hp]
  · intro raw e1 e2 hb hp hi
    unfold decodeResponse decodeResponseDoc
    simp [hb, hp, hi]
  · intro raw e1 buf e3 hb hp hi hp2
    unfold decodeResponse decodeResponseDoc
    simp [hb, hp, hi, hp2]
  · intro raw e1 buf el hb hp hi hp2
    unfold decodeResponse decodeResponseDoc
    simp [hb, hp, hi, hp2]
  · intro raw e1 buf hb hp hi hp2
    unfold decodeResponse decodeResponseDoc
    simp [hb, hp, hi, hp2]

/-- Witness for C6 at concrete inputs: invalid base64 fails the whole call
with the decode error; a directly parseable payload decodes to its root; and
a deflate-compressed payload decodes through the decompression fallback. -/
theorem c6_witness :
    decodeResponse demoCaps "not-base64" =
      .error (.base64DecodeError "illegal base64 data") ∧
    ValidateEncodedResponse demoCaps demoSP "not-base64" =
      .error (.base64DecodeError "illegal base64 data") ∧
    decodeResponse signedEnvelopeCaps "ZW5j" = .ok respEmpty ∧
    decodeResponse deflateCaps "ZW5j" = .ok respEmpty := by
  have h1 := (c6_decoder_behavior demoCaps demoSP "not-base64").1
    "illegal base64 data" rfl
  have h2 := (c6_decoder_behavior signedEnvelopeCaps demoSP "ZW5j").2.1
    [0] respEmpty rfl rfl
  have h3 := (c6_decoder_behavior deflateCaps demoSP "ZW5j").2.2.2.2.2.1
    [2] "malformed XML" [0] respEmpty rfl rfl rfl rfl
  exact ⟨h1.1, h1.2, h2, h3⟩

/-- The final unmarshal-and-validate phase only returns a typed response that
passed the semantic attribute checks: its destination equals the configured
endpoint and its version is the supported one. -/
theorem unmarshalAndValidate_ok_attributes
    (caps : Capabilities) (sp : SAMLServiceProvider) (el : Element)
    (r : TypedResponse)
    (h : unmarshalAndValidate caps sp el = .ok r) :
    r.destination = sp.assertionConsumerServiceURL ∧ r.version = "2.0" := by
  unfold unmarshalAndValidate at h
  split at h
  · exact absurd h (by simp)
  · rename_i resp hu
    split at h
    · exact absurd h (by simp)
    · rename_i u hsv
      injection h with h2
      subst h2
      unfold spValidate at hsv
      split at hsv
      · exact absurd hsv (by simp)
      · rename_i u2 hra
        unfold validateResponseAttributes at hra
        by_cases hd : resp.destination = sp.assertionConsumerServiceURL
        · by_cases hv : resp.version = "2.0"
          · exact ⟨hd, hv⟩
          · rw [if_neg (fun hne => hne hd), if_pos hv] at hra
            exact absurd hra (by simp)
        · rw [if_pos hd] at hra
          exact absurd hra (by simp)

/-- Every success of the post-envelope phase goes through the final phase, so
its typed response satisfies the semantic attribute checks. -/
theorem afterEnvelopeValidation_ok_attributes
    (caps : Capabilities) (sp : SAMLServiceProvider) (el : Element)
    (validated : Bool) (r : TypedResponse)
    (h : afterEnvelopeValidation caps sp el validated = .ok r) :
    r.destination = sp.assertionConsumerServiceURL ∧ r.version = "2.0" := by
  unfold afterEnvelopeValidation at h
  repeat' split at h
  all_goals first
    | exact absurd h (by simp)
    | exact unmarshalAndValidate_ok_attributes _ _ _ _ h

/-- Every success of the post-decode phase satisfies the semantic attribute
checks. -/
theorem afterDecode_ok_attributes
    (caps : Capabilities) (sp : SAMLServiceProvider) (el0 : Element)
    (r : TypedResponse)
    (h : afterDecode caps sp el0 = .ok r) :
    r.destination = sp.assertionConsumerServiceURL ∧ r.version = "2.0" := by
  unfold afterDecode at h
  repeat' split at h
  all_goals first
    | exact absurd h (by simp)
    | exact afterEnvelopeValidation_ok_attributes _ _ _ _ _ h

/-- Every typed response returned by the whole validation call satisfies the
semantic attribute checks. -/
theorem ValidateEncodedResponse_ok_attributes
    (caps : Capabilities) (sp : SAMLServiceProvider) (enc : String)
    (r : TypedResponse)
    (h : ValidateEncodedResponse caps sp enc = .ok r) :
    r.destination = sp.assertionConsumerServiceURL ∧ r.version = "2.0" := by
  unfold ValidateEncodedResponse at h
  split at h
  · exact absurd h (by simp)
  · exact afterDecode_ok_attributes _ _ _ _ h

/-- C7: semantic attribute validation fails with the invalid-value error
whenever the destination attribute differs from the configured
assertion-consumer service URL, fails with the unsupported-value error
whenever the version attribute differs from the string "2.0" (and fails on
any version mismatch), and a typed response returned by the whole validation
call — hence one that passed every signature check — always matches the
configured endpoint and carries the supported version. -/
theorem c7_semantic_attribute_validation :
    (∀ (sp : SAMLServiceProvider) (r : TypedResponse),
      r.destination ≠ sp.assertionConsumerServiceURL →
      validateResponseAttributes sp r =
        .error (.errInvalidValue "" DestinationAttr
          sp.assertionConsumerServiceURL r.destination)) ∧
    (∀ (sp : SAMLServiceProvider) (r : TypedResponse),
      r.destination = sp.assertionConsumerServiceURL → r.version ≠ "2.0" →
      validateResponseAttributes sp r =
        .error (.errInvalidValue ReasonUnsupported "SAML version" "2.0"
          r.version)) ∧
    (∀ (sp : SAMLServiceProvider) (r : TypedResponse),
      r.version ≠ "2.0" → ∃ e, validateResponseAttributes sp r = .error e) ∧
    (∀ (caps : Capabilities) (sp : SAMLServiceProvider) (enc : String)
       (r : TypedResponse),
      ValidateEncodedResponse caps sp enc = .ok r →
      r.destination = sp.assertionConsumerServiceURL ∧ r.version = "2.0") := by
  refine ⟨?_, ?_, ?_, ?_⟩
  · intro sp r hd
    unfold validateResponseAttributes
    rw [if_pos hd]
  · intro sp r hd hv
    unfold validateResponseAttributes
    rw [if_neg (fun hne => hne hd), if_pos hv]
  · intro sp r hv
    by_cases hd : r.destination = sp.assertionConsumerServiceURL
    · exact ⟨.errInvalidValue ReasonUnsupported "SAML version" "2.0" r.version, by
        unfold validateResponseAttributes
        rw [if_neg (fun hne => hne hd), if_pos hv]⟩
    · exact ⟨.errInvalidValue "" DestinationAttr sp.assertionConsumerServiceURL
        r.destination, by
        unfold validateResponseAttributes
        rw [if_pos hd]⟩
  · intro caps sp enc r h
    exact ValidateEncodedResponse_ok_attributes caps sp enc r h

/-- Witness for C7 at concrete inputs: a response aimed at a different
endpoint fails with the invalid-value error, a response with version 1.1
fails with the unsupported-value error, and a fully successful validation
call returns a typed response matching the configured endpoint and
version. -/
theorem c7_witness :
    validateResponseAttributes demoSP
      { destination := "evil.example/acs", version := "2.0", body := "x" } =
      .error (.errInvalidValue "" DestinationAttr "sp.example/acs"
        "evil.example/acs") ∧
    validateResponseAttributes demoSP
      { destination := "sp.example/acs", version := "1.1", body := "x" } =
      .error (.errInvalidValue ReasonUnsupported "SAML version" "2.0" "1.1") ∧
    ValidateEncodedResponse signedEnvelopeCaps demoSP "ZW5j" = .ok demoResp ∧
    demoResp.destination = demoSP.assertionConsumerServiceURL ∧
    demoResp.version = "2.0" := by
  have hok : ValidateEncodedResponse signedEnvelopeCaps demoSP "ZW5j" =
      .ok demoResp := by
    simp [ValidateEncodedResponse, decodeResponse, decodeResponseDoc,
      signedEnvelopeCaps, afterDecode, validateElementSignature, demoSP,
      afterEnvelopeValidation, decryptAssertions, findDesc, findDescAux,
      respEmpty, Element.children, initDecryptState, iterateHandler,
      Element.withChildren, validateAssertionSignatures, initAssertionState,
      unmarshalAndValidate, spValidate, validateResponseAttributes, demoResp,
      SAMLServiceProvider.validationContext, demoStore, demoClock]
  have hattrs := c7_semantic_attribute_validation.2.2.2 signedEnvelopeCaps demoSP
    "ZW5j" demoResp hok
  have h1 := c7_semantic_attribute_validation.1 demoSP
    { destination := "evil.example/acs", version := "2.0", body := "x" }
    (by decide)
  have h2 := c7_semantic_attribute_validation.2.1 demoSP
    { destination := "sp.example/acs", version := "1.1", body := "x" }
    rfl (by decide)
  exact ⟨h1, h2, hok, hattrs⟩

/-- C9: validation is deterministic and free of side effects on the shared
provider configuration: the state-threading form returns the incoming
configuration unchanged, and a second run on the configuration left by the
first returns the same result and the same configuration again. -/
theorem c9_deterministic_and_side_effect_free
    (caps : Capabilities) (sp : SAMLServiceProvider) (enc : String) :
    (ValidateEncodedResponseRun caps sp enc).2 = sp ∧
    (ValidateEncodedResponseRun caps (ValidateEncodedResponseRun caps sp enc).2
        enc).1 = (ValidateEncodedResponseRun caps sp enc).1 ∧
    (ValidateEncodedResponseRun caps (ValidateEncodedResponseRun caps sp enc).2
        enc).2 = sp :=
  ⟨rfl, rfl, rfl⟩
